/-
Verification of the scoring and interpretation engine of the Psy_OPD
backend (a clinical survey platform).

The development shallowly embeds the Python sources:
  * backend/app/services/interpretation.py  (interpret_rating_scale)
  * backend/app/services/scoring.py         (_convert_to_numeric)
  * backend/app/services/psqi_scoring.py    (PSQI component calculators)

Conventions of the embedding:
  * Python dictionaries handed to the evaluator are modelled as
    association lists; a returned result dictionary is modelled by the
    `IRes` record (its optional "category" / "description" / "error"
    keys) and an uncaught Python exception by `PyResult.exc`.
  * Python scalar values appearing in conditions are modelled by
    `Value`; `pyEq` models the Python `==` on those scalars (booleans
    compare equal to their numeric counterparts, strings only to equal
    strings, None only to None).
  * `float("inf")` used as an open upper bound is modelled by the
    `Option Int` upper bound: `none` compares greater than every score.
  * Messages built with f-strings are reproduced except that the
    surrounding quote characters around interpolated values are omitted.
  * Floating point arithmetic of the PSQI calculator is modelled over ℚ
    (all quantities involved are exact small rationals).
-/

import Mathlib

namespace PsyOPD

/-- Python scalar values that can occur as an auxiliary-condition value
or as a supplied response value. -/
inductive Value where
  | none : Value
  | bool (b : Bool) : Value
  | int (n : Int) : Value
  | str (s : String) : Value
  deriving DecidableEq

/-- Python `==` on the scalar values above: `True == 1`, `False == 0`,
strings equal only equal strings, `None` equal only `None`. -/
def pyEq : Value → Value → Bool
  | Value.none, Value.none => true
  | Value.bool a, Value.bool b => a == b
  | Value.int m, Value.int n => m == n
  | Value.bool b, Value.int n => (if b then (1 : Int) else 0) == n
  | Value.int n, Value.bool b => n == (if b then (1 : Int) else 0)
  | Value.str s, Value.str t => s == t
  | _, _ => false

/-- Python `str()` of a scalar, as used by f-string interpolation. -/
def pyStr : Value → String
  | Value.none => "None"
  | Value.bool b => if b then "True" else "False"
  | Value.int n => toString n
  | Value.str s => s

/-- The `additional_condition` object of a threshold criterion
(`{field, value, description}`); the evaluator reads only `field` and
`value`. -/
structure AddCond where
  field : String
  value : Value
  description : String
  deriving DecidableEq

/-- One entry of an assessment's `criteria` list: either a range
criterion `{"range": [lo, hi|null], ...}` or a threshold criterion
`{"threshold": t, ...}` optionally carrying an additional condition. -/
inductive Criterion where
  | range (lo : Int) (hi : Option Int) (category description : String)
  | threshold (t : Int) (cond : Option AddCond) (category description : String)
  deriving DecidableEq

/-- An entry of a gender-specific criteria list (these are accessed via
`criterion["range"]` unconditionally in the source). -/
structure GRule where
  lo : Int
  hi : Option Int
  category : String
  description : String
  deriving DecidableEq

/-- An assessment record of `scoring_criteria.json`: a name plus either
`criteria` or `criteria_by_gender` (modelled as optional fields). -/
structure Assessment where
  name : String
  criteriaByGender : Option (List (String × List GRule))
  criteria : Option (List Criterion)
  deriving DecidableEq

/-- The result dictionary built by `interpret_rating_scale`, with its
optional `category`, `description` and `error` keys. -/
structure IRes where
  category : Option String
  description : Option String
  error : Option String
  deriving DecidableEq

/-- Outcome of a call: a returned dictionary or an uncaught Python
exception. -/
inductive PyResult where
  | ret (r : IRes) : PyResult
  | exc (msg : String) : PyResult
  deriving DecidableEq

/-- `range_min <= score <= range_max` where a `null` upper bound was
replaced by `float("inf")` (hence matches every score). -/
def rangeMatch (lo : Int) (hi : Option Int) (score : Int) : Bool :=
  decide (lo ≤ score) && (match hi with
    | Option.none => true
    | Option.some h => decide (score ≤ h))

/-- First matching rule of a gender-specific criteria list. -/
def firstGMatch (score : Int) : List GRule → Option (String × String)
  | [] => Option.none
  | r :: rest =>
    if rangeMatch r.lo r.hi score then Option.some (r.category, r.description)
    else firstGMatch score rest

/-- Python falsiness of the optional `additional_conditions` dict
(`None` and the empty dict are falsy). -/
def condsFalsy : Option (List (String × Value)) → Bool
  | Option.none => true
  | Option.some l => l.isEmpty

/-- `additional_conditions.get(field)` (missing key yields `None`). -/
def lookupCond (l : List (String × Value)) (f : String) : Value :=
  match l.find? (fun p => p.1 == f) with
  | Option.some p => p.2
  | Option.none => Value.none

/-- The description produced on a failed additional condition:
`f"{field} 값이 {expected}이어야 하지만 {actual}입니다."` (quote
characters around the interpolated values omitted). -/
def condFailDesc (f : String) (expected actual : Value) : String :=
  f ++ " 값이 " ++ pyStr expected ++ "이어야 하지만 " ++ pyStr actual ++ "입니다."

/-- Outcome of walking a `criteria` list: a matching criterion's
category/description, an early `return` out of the function, or no
match. -/
inductive CritOut where
  | matched (category description : String) : CritOut
  | early (r : PyResult) : CritOut
  | nomatch : CritOut
  deriving DecidableEq

/-- The `for criterion in assessment["criteria"]` loop of
`interpret_rating_scale`. -/
def runCriteria (score : Int) (conds : Option (List (String × Value))) :
    List Criterion → CritOut
  | [] => CritOut.nomatch
  | Criterion.range lo hi cat desc :: rest =>
    if rangeMatch lo hi score then CritOut.matched cat desc
    else runCriteria score conds rest
  | Criterion.threshold t cond cat desc :: rest =>
    if t ≤ score then
      match cond with
      | Option.none => CritOut.matched cat desc
      | Option.some ac =>
        if condsFalsy conds then
          CritOut.early (PyResult.ret
            ⟨Option.none, Option.none,
             Option.some "Additional conditions required for this assessment."⟩)
        else
          let actual := lookupCond (conds.getD []) ac.field
          if pyEq actual ac.value then CritOut.matched cat desc
          else
            CritOut.early (PyResult.ret
              ⟨Option.some "조건 불충족",
               Option.some (condFailDesc ac.field ac.value actual),
               Option.none⟩)
    else runCriteria score conds rest

/-- Python falsiness of `result["category"]` (`None` or `""`). -/
def categoryFalsy : Option String → Bool
  | Option.none => true
  | Option.some s => s.isEmpty

/-- The final `if not result["category"]` block: it reads
`assessment["criteria"][0]`, raising `KeyError` when the assessment has
no `criteria` key (gender-keyed assessments) and `IndexError` on an
empty list; a threshold-style first criterion yields the normal
default, otherwise the error key is added to the current result. -/
def noMatchFinish (a : Assessment) (partialRes : IRes) : PyResult :=
  match a.criteria with
  | Option.none => PyResult.exc "KeyError: criteria"
  | Option.some [] => PyResult.exc "IndexError: list index out of range"
  | Option.some (c :: _) =>
    match c with
    | Criterion.threshold _ _ _ _ =>
      PyResult.ret
        ⟨Option.some "정상",
         Option.some "점수가 임계값 미만이므로 정상으로 간주됩니다.",
         Option.none⟩
    | Criterion.range _ _ _ _ =>
      PyResult.ret
        { partialRes with
          error := Option.some "No matching criteria found for the given score." }

/-- Return of `interpret_rating_scale`: the no-match block runs exactly
when the accumulated category is falsy. -/
def finishResult (a : Assessment) (r : IRes) : PyResult :=
  if categoryFalsy r.category then noMatchFinish a r else PyResult.ret r

/-- Python falsiness of the optional gender argument. -/
def genderFalsy : Option String → Bool
  | Option.none => true
  | Option.some s => s.isEmpty

/-- Shallow embedding of `interpret_rating_scale` from
`backend/app/services/interpretation.py`, as a function of the parsed
criteria table (the JSON file load is modelled by passing the
assessment list). -/
def interpret_rating_scale (assessments : List Assessment)
    (assessment_name : String) (score : Int)
    (gender : Option String := Option.none)
    (additional_conditions : Option (List (String × Value)) := Option.none) :
    PyResult :=
  match assessments.find? (fun a => a.name == assessment_name) with
  | Option.none =>
    PyResult.ret
      ⟨Option.none, Option.none,
       Option.some ("Assessment " ++ assessment_name ++ " not found.")⟩
  | Option.some a =>
    match a.criteriaByGender with
    | Option.some gmap =>
      if genderFalsy gender then
        PyResult.ret
          ⟨Option.none, Option.none,
           Option.some "Gender is required for this assessment."⟩
      else
        let g := gender.getD ""
        match gmap.find? (fun p => p.1 == g) with
        | Option.none =>
          PyResult.ret
            ⟨Option.none, Option.none,
             Option.some ("Invalid gender " ++ g ++ ". Expected 남 or 여.")⟩
        | Option.some p =>
          match firstGMatch score p.2 with
          | Option.some cd =>
            finishResult a ⟨Option.some cd.1, Option.some cd.2, Option.none⟩
          | Option.none =>
            finishResult a ⟨Option.none, Option.none, Option.none⟩
    | Option.none =>
      match a.criteria with
      | Option.some cs =>
        match runCriteria score additional_conditions cs with
        | CritOut.matched cat desc =>
          finishResult a ⟨Option.some cat, Option.some desc, Option.none⟩
        | CritOut.early r => r
        | CritOut.nomatch =>
          finishResult a ⟨Option.none, Option.none, Option.none⟩
      | Option.none =>
        finishResult a ⟨Option.none, Option.none, Option.none⟩

/-! ### `_convert_to_numeric` from backend/app/services/scoring.py -/

/-- The `string_mappings` table of `_convert_to_numeric`. -/
def string_mappings : List (String × Int) :=
  [("never", 0), ("no", 0), ("none", 0), ("not at all", 0),
   ("rarely", 1), ("sometimes", 1), ("mild", 1), ("slightly", 1),
   ("often", 2), ("moderate", 2), ("moderately", 2),
   ("always", 3), ("severe", 3), ("very", 3), ("extremely", 3),
   ("yes", 1), ("true", 1)]

/-- `max(0, min(numeric_value, max_value))`. -/
def clampRange (n max_value : Int) : Int := max 0 (min n max_value)

/-- Whitespace characters removed by Python `str.strip()` (the common
ASCII ones; exotic unicode whitespace is not modelled). -/
def isPySpace (c : Char) : Bool :=
  c == ' ' || c == '\t' || c == '\n' || c == '\r'

/-- Python `str.strip()`. -/
def pyStrip (s : String) : String :=
  String.mk (((s.toList.dropWhile isPySpace).reverse.dropWhile isPySpace).reverse)

/-- ASCII lowering of one character. -/
def lowerChar (c : Char) : Char :=
  if 'A' ≤ c ∧ c ≤ 'Z' then Char.ofNat (c.toNat + 32) else c

/-- Python `str.lower()` (ASCII letters; the table keys and numeric
literals involved are ASCII). -/
def pyLower (s : String) : String :=
  String.mk (s.toList.map lowerChar)

/-- Result of Python `float(s)` on a (stripped, lowered) string, as far
as `int(float(s))` observes it: a finite value is recorded by the
integer `int` truncates it to. -/
inductive PyFloat where
  | finite (n : Int) : PyFloat
  | inf : PyFloat
  | neginf : PyFloat
  | nan : PyFloat
  deriving DecidableEq

/-- Value of a list of decimal digits. -/
def digitsVal (l : List Char) : Int :=
  l.foldl (fun a c => a * 10 + ((c.toNat : Int) - 48)) 0

/-- Decimal-literal part of Python `float` parsing (after the sign):
digits with an optional fractional part, at least one digit in all;
returns the integer part (truncation toward zero). -/
def parseDecimalChars (cs : List Char) : Option Int :=
  let intPart := cs.takeWhile Char.isDigit
  let rest := cs.drop intPart.length
  match rest with
  | [] => if intPart.isEmpty then Option.none else Option.some (digitsVal intPart)
  | '.' :: frac =>
    if frac.all Char.isDigit && (!intPart.isEmpty || !frac.isEmpty) then
      Option.some (digitsVal intPart)
    else Option.none
  | _ => Option.none

/-- `float(s)` on a stripped, lowered string, modelled for plain decimal
literals (optional sign, digits, optional fraction; exponents and
underscores are not modelled) and the special spellings of infinities
and NaN. Unparseable strings yield `none` (Python `ValueError`). -/
def pyFloatOfString (s : String) : Option PyFloat :=
  if s == "inf" || s == "infinity" || s == "+inf" || s == "+infinity" then
    Option.some PyFloat.inf
  else if s == "-inf" || s == "-infinity" then Option.some PyFloat.neginf
  else if s == "nan" || s == "+nan" || s == "-nan" then Option.some PyFloat.nan
  else
    match s.toList with
    | '+' :: cs => (parseDecimalChars cs).map PyFloat.finite
    | '-' :: cs => (parseDecimalChars cs).map (fun n => PyFloat.finite (-n))
    | cs => (parseDecimalChars cs).map PyFloat.finite

/-- Outcome of `_convert_to_numeric`: a returned integer or an escaping
Python exception. -/
inductive ConvOut where
  | ok (n : Int) : ConvOut
  | raised (msg : String) : ConvOut
  deriving DecidableEq

/-- Shallow embedding of `_convert_to_numeric`: strings go through
`strip().lower()`, the lexical table, then `int(float(value))` where
`ValueError`/`TypeError` are caught and contribute 0 — but the
`OverflowError` raised by `int(float("inf"))` is not caught and
escapes (`ConvOut.raised`). Every non-exceptional result is clamped by
`max(0, min(_, max_value))`. -/
def _convert_to_numeric (value : Value) (max_value : Int := 4) : ConvOut :=
  match value with
  | Value.str s0 =>
    let s := pyLower (pyStrip s0)
    match string_mappings.find? (fun p => p.1 == s) with
    | Option.some p => ConvOut.ok (clampRange p.2 max_value)
    | Option.none =>
      match pyFloatOfString s with
      | Option.some (PyFloat.finite n) => ConvOut.ok (clampRange n max_value)
      | Option.some PyFloat.inf =>
        ConvOut.raised "OverflowError: cannot convert float infinity to integer"
      | Option.some PyFloat.neginf =>
        ConvOut.raised "OverflowError: cannot convert float infinity to integer"
      | Option.some PyFloat.nan => ConvOut.ok (clampRange 0 max_value)
      | Option.none => ConvOut.ok (clampRange 0 max_value)
  | Value.int n => ConvOut.ok (clampRange n max_value)
  | Value.bool b => ConvOut.ok (clampRange (if b then 1 else 0) max_value)
  | Value.none => ConvOut.ok (clampRange 0 max_value)

/-! ### PSQI calculators from backend/app/services/psqi_scoring.py -/

/-- A bedtime / wake-time argument: either an `"HH:MM"` string (already
split into its two integers) or a raw numeric hour value. -/
inductive TimeVal where
  | hm (h m : Int) : TimeVal
  | num (q : ℚ) : TimeVal
  deriving DecidableEq

/-- `time_to_float` inside `calculate_sleep_efficiency`: an `"HH:MM"`
string becomes `hours + minutes / 60.0`, anything else is `float(x)`. -/
def time_to_float : TimeVal → ℚ
  | TimeVal.hm h m => (h : ℚ) + (m : ℚ) / 60
  | TimeVal.num q => q

/-- `hours_in_bed = wakeup_time - goto_sleep`, plus 24 when that is
`<= 0` (overnight span). -/
def hours_in_bed (goto_sleep wakeup_time : ℚ) : ℚ :=
  let d := wakeup_time - goto_sleep
  if d ≤ 0 then d + 24 else d

/-- Shallow embedding of `calculate_sleep_efficiency`; `none` models the
`ZeroDivisionError` raised when the hours in bed come out to 0. -/
def calculate_sleep_efficiency (sleep_duration : ℚ)
    (goto_sleep wakeup_time : TimeVal) : Option Int :=
  let g := time_to_float goto_sleep
  let w := time_to_float wakeup_time
  let hib := hours_in_bed g w
  if hib = 0 then Option.none
  else
    let efficiency := sleep_duration / hib * 100
    Option.some
      (if 85 ≤ efficiency then 0
       else if 75 ≤ efficiency ∧ efficiency < 85 then 1
       else if 65 ≤ efficiency ∧ efficiency < 75 then 2
       else 3)

/-- Shallow embedding of `calculate_sleep_latency` (both arguments after
their `int(...)` conversions). -/
def calculate_sleep_latency (sleep_onset disturbance_a : Int) : Int :=
  let onset_score : Int :=
    if sleep_onset ≤ 15 then 0
    else if 16 ≤ sleep_onset ∧ sleep_onset ≤ 30 then 1
    else if 31 ≤ sleep_onset ∧ sleep_onset ≤ 60 then 2
    else 3
  let total_latency := onset_score + disturbance_a
  if total_latency = 0 then 0
  else if 1 ≤ total_latency ∧ total_latency ≤ 2 then 1
  else if 3 ≤ total_latency ∧ total_latency ≤ 4 then 2
  else 3

/-- The `psqi_sleep_disturbances` dictionary with its keys "a" … "j"
(each value after `int(...)`). -/
structure Disturbances where
  a : Int
  b : Int
  c : Int
  d : Int
  e : Int
  f : Int
  g : Int
  h : Int
  i : Int
  j : Int
  deriving DecidableEq

/-- `sum(int(v) for v in disturbances.values())`: the code sums every
value of the dictionary, item "a" included. -/
def disturbanceTotal (ds : Disturbances) : Int :=
  ds.a + ds.b + ds.c + ds.d + ds.e + ds.f + ds.g + ds.h + ds.i + ds.j

/-- Shallow embedding of `calculate_disturbance`. -/
def calculate_disturbance (ds : Disturbances) : Int :=
  let total := disturbanceTotal ds
  if total = 0 then 0
  else if 1 ≤ total ∧ total ≤ 9 then 1
  else if 10 ≤ total ∧ total ≤ 18 then 2
  else 3

/-- The `rating_result` dictionary consumed by `calculate_psqi_score`
(integer-valued fields after their `int(...)` conversions,
`sleep_duration` after `float(...)`). -/
structure PsqiInput where
  sleep_quality : Int
  sleep_onset : Int
  sleep_duration : ℚ
  hour_to_goto_sleep : TimeVal
  wakeup_time : TimeVal
  psqi_sleep_disturbances : Disturbances
  sleep_medication : Int
  daytime_dysfunction : Int
  daytime_motivation : Int
  deriving DecidableEq

/-- The seven component scores and the total returned by
`calculate_psqi_score`. -/
structure PsqiResult where
  total_score : Int
  c1 : Int
  c2 : Int
  c3 : Int
  c4 : Int
  c5 : Int
  c6 : Int
  c7 : Int
  deriving DecidableEq

/-- Shallow embedding of `calculate_psqi_score`; `none` models the
`ZeroDivisionError` escaping from the sleep-efficiency component. -/
def calculate_psqi_score (r : PsqiInput) : Option PsqiResult :=
  let c1 := r.sleep_quality
  let c2 := calculate_sleep_latency r.sleep_onset r.psqi_sleep_disturbances.a
  let sleep_hours := r.sleep_duration
  let c3 : Int :=
    if 7 < sleep_hours then 0
    else if 6 ≤ sleep_hours ∧ sleep_hours ≤ 7 then 1
    else if 5 ≤ sleep_hours ∧ sleep_hours < 6 then 2
    else 3
  match calculate_sleep_efficiency r.sleep_duration r.hour_to_goto_sleep
      r.wakeup_time with
  | Option.none => Option.none
  | Option.some c4 =>
    let c5 := calculate_disturbance r.psqi_sleep_disturbances
    let c6 := r.sleep_medication
    let c7sum := r.daytime_dysfunction + r.daytime_motivation
    let c7 : Int :=
      if c7sum = 0 then 0
      else if 1 ≤ c7sum ∧ c7sum ≤ 2 then 1
      else if 3 ≤ c7sum ∧ c7sum ≤ 4 then 2
      else 3
    Option.some
      ⟨c1 + c2 + c3 + c4 + c5 + c6 + c7, c1, c2, c3, c4, c5, c6, c7⟩

/-- The `category` key of the outcome, when a dictionary was returned. -/
def resultCategory : PyResult → Option String
  | PyResult.ret r => r.category
  | PyResult.exc _ => Option.none

/-- The `description` key of the outcome, when a dictionary was
returned. -/
def resultDescription : PyResult → Option String
  | PyResult.ret r => r.description
  | PyResult.exc _ => Option.none

/-- The `error` key of the outcome, when a dictionary was returned. -/
def resultError : PyResult → Option String
  | PyResult.ret r => r.error
  | PyResult.exc _ => Option.none

/-! ## Specification-side predicates -/

/-- Claim-side reading of a range rule `[low, high]`: `low ≤ total` and,
when the upper bound is not `null`, `total ≤ high`; a `null` bound is
unbounded above. -/
def RangeContains (lo : Int) (hi : Option Int) (s : Int) : Prop :=
  lo ≤ s ∧ (match hi with
    | Option.none => True
    | Option.some h => s ≤ h)

instance RangeContains.dec (lo : Int) (hi : Option Int) (s : Int) :
    Decidable (RangeContains lo hi s) :=
  match hi with
  | Option.none => (inferInstance : Decidable (lo ≤ s ∧ True))
  | Option.some h => (inferInstance : Decidable (lo ≤ s ∧ s ≤ h))

/-- Claim-side statement that a criterion does not fire at a score: a
range criterion whose range does not contain it, or a threshold
criterion whose threshold exceeds it. -/
def CritNoHit (s : Int) : Criterion → Prop
  | Criterion.range lo hi _ _ => ¬ RangeContains lo hi s
  | Criterion.threshold t _ _ _ => s < t

instance CritNoHit.dec (s : Int) (c : Criterion) : Decidable (CritNoHit s c) :=
  match c with
  | Criterion.range lo hi _ _ =>
    (inferInstance : Decidable ¬ RangeContains lo hi s)
  | Criterion.threshold t _ _ _ => (inferInstance : Decidable (s < t))

/-- Claim-side statement that a criterion is not a condition-carrying
threshold rule reached by the score: any criterion other than a
threshold rule with an `additional_condition` is allowed, and such a
rule must have its threshold above the score. -/
def ThresholdCondBelow (s : Int) : Criterion → Prop
  | Criterion.threshold t (Option.some _) _ _ => s < t
  | _ => True

instance ThresholdCondBelow.dec (s : Int) (c : Criterion) :
    Decidable (ThresholdCondBelow s c) :=
  match c with
  | Criterion.threshold t (Option.some _) _ _ =>
    (inferInstance : Decidable (s < t))
  | Criterion.threshold _ Option.none _ _ => Decidable.isTrue trivial
  | Criterion.range _ _ _ _ => Decidable.isTrue trivial

/-- A gender-specific criteria list viewed as ordinary range criteria. -/
def toRangeCriterion (r : GRule) : Criterion :=
  Criterion.range r.lo r.hi r.category r.description

/-! ## Helper lemmas -/

theorem rangeMatch_iff (lo : Int) (hi : Option Int) (s : Int) :
    rangeMatch lo hi s = true ↔ RangeContains lo hi s := by
  cases hi <;> simp [rangeMatch, RangeContains]

theorem runCriteria_nomatch (s : Int) (conds : Option (List (String × Value)))
    (cs : List Criterion) (h : ∀ c ∈ cs, CritNoHit s c) :
    runCriteria s conds cs = CritOut.nomatch := by
  induction cs with
  | nil => rfl
  | cons c rest ih =>
    have hc := h c (List.mem_cons_self c rest)
    have hrest : ∀ c ∈ rest, CritNoHit s c := fun c hm => h c (List.mem_cons_of_mem _ hm)
    cases c with
    | range lo hi cat desc =>
      have : rangeMatch lo hi s = false := by
        by_contra hcon
        exact hc ((rangeMatch_iff lo hi s).mp (by simpa using hcon))
      simp [runCriteria, this, ih hrest]
    | threshold t cond cat desc =>
      have : ¬ t ≤ s := by
        simp only [CritNoHit] at hc
        omega
      simp [runCriteria, this, ih hrest]

theorem runCriteria_ranges_first (s : Int)
    (conds : Option (List (String × Value))) (rs : List GRule) (i : ℕ)
    (hlen : i < rs.length)
    (hhit : RangeContains (rs.get ⟨i, hlen⟩).lo (rs.get ⟨i, hlen⟩).hi s)
    (hfirst : ∀ j (hj : j < rs.length), j < i →
      ¬ RangeContains (rs.get ⟨j, hj⟩).lo (rs.get ⟨j, hj⟩).hi s) :
    runCriteria s conds (rs.map toRangeCriterion)
      = CritOut.matched (rs.get ⟨i, hlen⟩).category (rs.get ⟨i, hlen⟩).description := by
  induction rs generalizing i with
  | nil => exact absurd hlen (by simp)
  | cons r rest ih =>
    cases i with
    | zero =>
      have : rangeMatch r.lo r.hi s = true := (rangeMatch_iff _ _ _).mpr hhit
      simp [toRangeCriterion, runCriteria, this]
    | succ j =>
      have hhead : ¬ RangeContains r.lo r.hi s := by
        have := hfirst 0 (by simp) (Nat.succ_pos j)
        simpa using this
      have hm : rangeMatch r.lo r.hi s = false := by
        by_contra hcon
        exact hhead ((rangeMatch_iff _ _ _).mp (by simpa using hcon))
      have hlen' : j < rest.length := by simpa using hlen
      have := ih j hlen' (by simpa using hhit)
        (fun k hk hki => by
          have := hfirst (k + 1) (by simpa using Nat.succ_lt_succ hk)
            (Nat.succ_lt_succ hki)
          simpa using this)
      simp [toRangeCriterion, runCriteria, hm, this]

theorem runCriteria_append_nohit (s : Int)
    (conds : Option (List (String × Value))) (pre cs : List Criterion)
    (h : ∀ c ∈ pre, CritNoHit s c) :
    runCriteria s conds (pre ++ cs) = runCriteria s conds cs := by
  induction pre with
  | nil => rfl
  | cons c rest ih =>
    have hc := h c (List.mem_cons_self c rest)
    have hrest : ∀ c ∈ rest, CritNoHit s c :=
      fun c hm => h c (List.mem_cons_of_mem _ hm)
    cases c with
    | range lo hi cat desc =>
      have : rangeMatch lo hi s = false := by
        by_contra hcon
        exact hc ((rangeMatch_iff lo hi s).mp (by simpa using hcon))
      simp [runCriteria, this, ih hrest]
    | threshold t cond cat desc =>
      have : ¬ t ≤ s := by
        simp only [CritNoHit] at hc
        omega
      simp [runCriteria, this, ih hrest]

theorem finishResult_range_head (a : Assessment) (lo : Int) (hi : Option Int)
    (cat0 desc0 : String) (rest : List Criterion)
    (hc : a.criteria = Option.some (Criterion.range lo hi cat0 desc0 :: rest))
    (cat desc : String) :
    finishResult a ⟨Option.some cat, Option.some desc, Option.none⟩
      = PyResult.ret ⟨Option.some cat, Option.some desc,
          if cat.isEmpty then
            Option.some "No matching criteria found for the given score."
          else Option.none⟩ := by
  unfold finishResult noMatchFinish categoryFalsy
  cases hcat : cat.isEmpty <;> simp [hc, hcat]

theorem firstGMatch_none (s : Int) (rs : List GRule)
    (h : ∀ r ∈ rs, ¬ RangeContains r.lo r.hi s) :
    firstGMatch s rs = Option.none := by
  induction rs with
  | nil => rfl
  | cons r rest ih =>
    have hr := h r (List.mem_cons_self r rest)
    have hm : rangeMatch r.lo r.hi s = false := by
      by_contra hcon
      exact hr ((rangeMatch_iff _ _ _).mp (by simpa using hcon))
    simp [firstGMatch, hm, ih (fun r hm' => h r (List.mem_cons_of_mem _ hm'))]

theorem runCriteria_none_no_early (s : Int) (cs : List Criterion)
    (h : ∀ c ∈ cs, ThresholdCondBelow s c) :
    (∃ cat desc, runCriteria s Option.none cs = CritOut.matched cat desc) ∨
    runCriteria s Option.none cs = CritOut.nomatch := by
  induction cs with
  | nil => exact Or.inr rfl
  | cons c rest ih =>
    have hc := h c (List.mem_cons_self c rest)
    have hrest := ih (fun c hm => h c (List.mem_cons_of_mem _ hm))
    cases c with
    | range lo hi cat desc =>
      cases hm : rangeMatch lo hi s with
      | true => exact Or.inl ⟨cat, desc, by simp [runCriteria, hm]⟩
      | false =>
        rcases hrest with ⟨cat', desc', hr⟩ | hr
        · exact Or.inl ⟨cat', desc', by simp [runCriteria, hm, hr]⟩
        · exact Or.inr (by simp [runCriteria, hm, hr])
    | threshold t cond cat desc =>
      by_cases hts : t ≤ s
      · cases cond with
        | none => exact Or.inl ⟨cat, desc, by simp [runCriteria, hts]⟩
        | some ac =>
          exact absurd hts (by simp only [ThresholdCondBelow] at hc; omega)
      · rcases hrest with ⟨cat', desc', hr⟩ | hr
        · exact Or.inl ⟨cat', desc', by simp [runCriteria, hts, hr]⟩
        · exact Or.inr (by simp [runCriteria, hts, hr])

theorem finishResult_error_ne_addcond (a : Assessment) (r : IRes)
    (hr : r.error = Option.none) :
    resultError (finishResult a r)
      ≠ Option.some "Additional conditions required for this assessment." := by
  cases hcat : categoryFalsy r.category with
  | false => simp [finishResult, hcat, resultError, hr]
  | true =>
    simp only [finishResult, hcat, if_true]
    unfold noMatchFinish
    cases hcr : a.criteria with
    | none => simp [resultError]
    | some cs =>
      cases cs with
      | nil => simp [resultError]
      | cons c rest =>
        cases c with
        | threshold t cond cat desc => simp [resultError]
        | range lo hi cat desc =>
          simp only [resultError]
          simp

theorem interpret_nomatch_threshold_first (nm : String) (t : Int)
    (cond : Option AddCond) (cat desc : String) (rest : List Criterion)
    (s : Int) (gender : Option String)
    (conds : Option (List (String × Value)))
    (h : ∀ c ∈ Criterion.threshold t cond cat desc :: rest, CritNoHit s c) :
    interpret_rating_scale
        [⟨nm, Option.none,
          Option.some (Criterion.threshold t cond cat desc :: rest)⟩]
        nm s gender conds
      = PyResult.ret
          ⟨Option.some "정상",
           Option.some "점수가 임계값 미만이므로 정상으로 간주됩니다.",
           Option.none⟩ := by
  have hrun := runCriteria_nomatch s conds _ h
  simp [interpret_rating_scale, List.find?, hrun, finishResult, categoryFalsy,
    noMatchFinish]

theorem interpret_nomatch_range_first (nm : String) (lo : Int)
    (hi : Option Int) (cat desc : String) (rest : List Criterion)
    (s : Int) (gender : Option String)
    (conds : Option (List (String × Value)))
    (h : ∀ c ∈ Criterion.range lo hi cat desc :: rest, CritNoHit s c) :
    interpret_rating_scale
        [⟨nm, Option.none,
          Option.some (Criterion.range lo hi cat desc :: rest)⟩]
        nm s gender conds
      = PyResult.ret
          ⟨Option.none, Option.none,
           Option.some "No matching criteria found for the given score."⟩ := by
  have hrun := runCriteria_nomatch s conds _ h
  simp [interpret_rating_scale, List.find?, hrun, finishResult, categoryFalsy,
    noMatchFinish]

theorem interpret_gender_nomatch_keyerror (nm : String)
    (gmap : List (String × List GRule)) (g : String) (rs : List GRule)
    (s : Int) (conds : Option (List (String × Value)))
    (hg : g.isEmpty = false)
    (hfind : gmap.find? (fun p => p.1 == g) = Option.some (g, rs))
    (h : ∀ r ∈ rs, ¬ RangeContains r.lo r.hi s) :
    interpret_rating_scale [⟨nm, Option.some gmap, Option.none⟩]
        nm s (Option.some g) conds
      = PyResult.exc "KeyError: criteria" := by
  have hmat := firstGMatch_none s rs h
  simp [interpret_rating_scale, List.find?, genderFalsy, hg, hfind, hmat,
    finishResult, categoryFalsy, noMatchFinish]

theorem calculate_sleep_latency_bounds (a b : Int) :
    0 ≤ calculate_sleep_latency a b ∧ calculate_sleep_latency a b ≤ 3 := by
  simp only [calculate_sleep_latency]
  split_ifs <;> omega

theorem calculate_disturbance_bounds (ds : Disturbances) :
    0 ≤ calculate_disturbance ds ∧ calculate_disturbance ds ≤ 3 := by
  simp only [calculate_disturbance]
  split_ifs <;> omega

theorem calculate_sleep_efficiency_bounds (d : ℚ) (gt wt : TimeVal) (n : Int)
    (h : calculate_sleep_efficiency d gt wt = Option.some n) :
    0 ≤ n ∧ n ≤ 3 := by
  by_cases hz : hours_in_bed (time_to_float gt) (time_to_float wt) = 0
  · simp [calculate_sleep_efficiency, hz] at h
  · simp only [calculate_sleep_efficiency, hz, if_false,
      Option.some.injEq] at h
    split_ifs at h <;> omega

/-! ## Claims -/

/-- C1: for an instrument whose rule list is range-based, the rule
evaluator returns the category and description of the first rule in
list order whose range contains the total: a range `[low, high]`
matches exactly when `low ≤ total ≤ high` (both endpoints inclusive), a
`null` high is unbounded above, and iteration stops at the first
matching rule (the returned fields are those of the earliest matching
rule regardless of later rules). -/
theorem C1_range_rule_first_match (nm : String) (rs : List GRule) (s : Int)
    (gender : Option String) (conds : Option (List (String × Value)))
    (i : ℕ) (hlen : i < rs.length)
    (hhit : RangeContains (rs.get ⟨i, hlen⟩).lo (rs.get ⟨i, hlen⟩).hi s)
    (hfirst : ∀ j (hj : j < rs.length), j < i →
      ¬ RangeContains (rs.get ⟨j, hj⟩).lo (rs.get ⟨j, hj⟩).hi s) :
    resultCategory (interpret_rating_scale
        [⟨nm, Option.none, Option.some (rs.map toRangeCriterion)⟩]
        nm s gender conds)
      = Option.some (rs.get ⟨i, hlen⟩).category ∧
    resultDescription (interpret_rating_scale
        [⟨nm, Option.none, Option.some (rs.map toRangeCriterion)⟩]
        nm s gender conds)
      = Option.some (rs.get ⟨i, hlen⟩).description := by
  have hrun := runCriteria_ranges_first s conds rs i hlen hhit hfirst
  obtain ⟨r0, rs', hrs⟩ : ∃ r0 rs', rs = r0 :: rs' := by
    cases rs with
    | nil => simp at hlen
    | cons a b => exact ⟨a, b, rfl⟩
  subst hrs
  have hfin := finishResult_range_head
    ⟨nm, Option.none, Option.some ((r0 :: rs').map toRangeCriterion)⟩
    r0.lo r0.hi r0.category r0.description (rs'.map toRangeCriterion)
    (by simp [toRangeCriterion])
    ((r0 :: rs').get ⟨i, hlen⟩).category ((r0 :: rs').get ⟨i, hlen⟩).description
  simp only [interpret_rating_scale, List.find?, beq_self_eq_true, hrun, hfin]
  cases hcat : ((r0 :: rs').get ⟨i, hlen⟩).category.isEmpty <;>
    simp [resultCategory, resultDescription, hcat]

/-- Closed instance of C1: a two-rule range instrument at total 10,
where the second rule `[10, 15]` is the first (and only) match. -/
theorem C1_witness :
    resultCategory (interpret_rating_scale
        [⟨"BDI", Option.none, Option.some
          ([⟨0, Option.some 9, "정상", "d1"⟩,
            ⟨10, Option.some 15, "가벼운 우울", "d2"⟩].map toRangeCriterion)⟩]
        "BDI" 10 Option.none Option.none)
      = Option.some "가벼운 우울" ∧
    resultDescription (interpret_rating_scale
        [⟨"BDI", Option.none, Option.some
          ([⟨0, Option.some 9, "정상", "d1"⟩,
            ⟨10, Option.some 15, "가벼운 우울", "d2"⟩].map toRangeCriterion)⟩]
        "BDI" 10 Option.none Option.none)
      = Option.some "d2" :=
  C1_range_rule_first_match "BDI"
    [⟨0, Option.some 9, "정상", "d1"⟩, ⟨10, Option.some 15, "가벼운 우울", "d2"⟩]
    10 Option.none Option.none 1 (by decide) (by decide) (by decide)

/-- C2 counterexample: the claim predicts that a supplied `"false"`
matches an expected `false` under tolerant coercion, so the threshold
rule's own category would be returned; the code compares with plain
equality and instead returns the condition-failure category. -/
theorem C2_counterexample :
    resultCategory (interpret_rating_scale
        [⟨"T", Option.none, Option.some
          [Criterion.threshold 5 (Option.some ⟨"f", Value.bool false, "cd"⟩)
            "POS" "DP"]⟩]
        "T" 10 Option.none (Option.some [("f", Value.str "false")]))
      = Option.some "조건 불충족" ∧
    resultCategory (interpret_rating_scale
        [⟨"T", Option.none, Option.some
          [Criterion.threshold 5 (Option.some ⟨"f", Value.bool false, "cd"⟩)
            "POS" "DP"]⟩]
        "T" 10 Option.none (Option.some [("f", Value.str "false")]))
      ≠ Option.some "POS" := by
  exact ⟨by decide, by decide⟩

/-- C2 (amended): on a threshold rule met by the total, the supplied
condition value is compared to the expected value with plain Python
equality `==`: numeric `1`/`0` equal the booleans `true`/`false`, but
the strings `"true"`/`"false"`, `None` and `""` are not coerced and do
not equal a boolean. -/
theorem C2_condition_comparison_is_plain_equality
    (nm f : String) (expected actual : Value) (t s : Int)
    (cat desc cd : String) (hts : t ≤ s) (hcat : cat.isEmpty = false) :
    (resultCategory (interpret_rating_scale
        [⟨nm, Option.none, Option.some
          [Criterion.threshold t (Option.some ⟨f, expected, cd⟩) cat desc]⟩]
        nm s Option.none (Option.some [(f, actual)]))
      = if pyEq actual expected then Option.some cat
        else Option.some "조건 불충족") ∧
    pyEq (Value.int 1) (Value.bool true) = true ∧
    pyEq (Value.int 0) (Value.bool false) = true ∧
    pyEq (Value.str "true") (Value.bool true) = false ∧
    pyEq (Value.str "false") (Value.bool false) = false ∧
    pyEq Value.none (Value.bool false) = false ∧
    pyEq (Value.str "") (Value.bool false) = false := by
  refine ⟨?_, by decide, by decide, by decide, by decide, by decide, by decide⟩
  cases hpe : pyEq actual expected <;>
    simp [interpret_rating_scale, List.find?, runCriteria, condsFalsy,
      lookupCond, finishResult, categoryFalsy, resultCategory, hts, hpe, hcat]

/-- Closed instance of C2 (amended): a supplied numeric `1` against an
expected boolean `true` passes the condition by plain equality. -/
theorem C2_witness :
    (7 : Int) ≤ 8 ∧ ("조울증 의심" : String).isEmpty = false ∧
    resultCategory (interpret_rating_scale
        [⟨"K-MDQ", Option.none, Option.some
          [Criterion.threshold 7
            (Option.some ⟨"simultaneity", Value.bool true, "cd"⟩)
            "조울증 의심" "kd"]⟩]
        "K-MDQ" 8 Option.none (Option.some [("simultaneity", Value.int 1)]))
      = if pyEq (Value.int 1) (Value.bool true) then Option.some "조울증 의심"
        else Option.some "조건 불충족" :=
  ⟨by decide, by decide,
    (C2_condition_comparison_is_plain_equality "K-MDQ" "simultaneity"
      (Value.bool true) (Value.int 1) 7 8 "조울증 의심" "kd" "cd"
      (by decide) (by decide)).1⟩

/-- C3 counterexample: a gender-keyed instrument whose (male) range
list matches nothing at total 10 makes the evaluator raise `KeyError`
(the final block reads `assessment["criteria"][0]`, a key gender-keyed
assessments lack) instead of returning the structured
no-matching-criteria error the claim promises. -/
theorem C3_counterexample :
    interpret_rating_scale
        [⟨"AUDIT", Option.some [("남", [⟨0, Option.some 9, "정상음주", "m1"⟩])],
          Option.none⟩]
        "AUDIT" 10 (Option.some "남") Option.none
      = PyResult.exc "KeyError: criteria" ∧
    resultError (interpret_rating_scale
        [⟨"AUDIT", Option.some [("남", [⟨0, Option.some 9, "정상음주", "m1"⟩])],
          Option.none⟩]
        "AUDIT" 10 (Option.some "남") Option.none)
      = Option.none := by
  exact ⟨by decide, by decide⟩

/-- C3 (amended): when no rule matches, an instrument whose `criteria`
list starts with a threshold rule gets the normal / below-threshold
default and one whose list starts with a range rule gets the structured
no-matching-criteria error; but a gender-keyed instrument with no
matching range raises `KeyError` (an uncaught exception, not a
structured error). -/
theorem C3_no_match_disposition :
    (∀ (nm : String) (t : Int) (cond : Option AddCond) (cat desc : String)
        (rest : List Criterion) (s : Int) (gender : Option String)
        (conds : Option (List (String × Value))),
      (∀ c ∈ Criterion.threshold t cond cat desc :: rest, CritNoHit s c) →
      interpret_rating_scale
          [⟨nm, Option.none,
            Option.some (Criterion.threshold t cond cat desc :: rest)⟩]
          nm s gender conds
        = PyResult.ret
            ⟨Option.some "정상",
             Option.some "점수가 임계값 미만이므로 정상으로 간주됩니다.",
             Option.none⟩) ∧
    (∀ (nm : String) (lo : Int) (hi : Option Int) (cat desc : String)
        (rest : List Criterion) (s : Int) (gender : Option String)
        (conds : Option (List (String × Value))),
      (∀ c ∈ Criterion.range lo hi cat desc :: rest, CritNoHit s c) →
      interpret_rating_scale
          [⟨nm, Option.none,
            Option.some (Criterion.range lo hi cat desc :: rest)⟩]
          nm s gender conds
        = PyResult.ret
            ⟨Option.none, Option.none,
             Option.some "No matching criteria found for the given score."⟩) ∧
    (∀ (nm : String) (gmap : List (String × List GRule)) (g : String)
        (rs : List GRule) (s : Int) (conds : Option (List (String × Value))),
      g.isEmpty = false →
      gmap.find? (fun p => p.1 == g) = Option.some (g, rs) →
      (∀ r ∈ rs, ¬ RangeContains r.lo r.hi s) →
      interpret_rating_scale [⟨nm, Option.some gmap, Option.none⟩]
          nm s (Option.some g) conds
        = PyResult.exc "KeyError: criteria") :=
  ⟨fun nm t cond cat desc rest s gender conds h =>
    interpret_nomatch_threshold_first nm t cond cat desc rest s gender conds h,
   fun nm lo hi cat desc rest s gender conds h =>
    interpret_nomatch_range_first nm lo hi cat desc rest s gender conds h,
   fun nm gmap g rs s conds hg hfind h =>
    interpret_gender_nomatch_keyerror nm gmap g rs s conds hg hfind h⟩

/-- Closed instances of C3 (amended): an OCI-R-style threshold list at a
below-threshold total defaults to normal; a BDI-style range list with a
gap returns the structured error; an AUDIT-style gender list with no
match raises `KeyError`. -/
theorem C3_witness :
    interpret_rating_scale
        [⟨"OCI-R", Option.none,
          Option.some [Criterion.threshold 21 Option.none "유의한 강박장애" "od"]⟩]
        "OCI-R" 15 Option.none Option.none
      = PyResult.ret
          ⟨Option.some "정상",
           Option.some "점수가 임계값 미만이므로 정상으로 간주됩니다.",
           Option.none⟩ ∧
    interpret_rating_scale
        [⟨"BDI", Option.none,
          Option.some [Criterion.range 0 (Option.some 9) "정상" "d1"]⟩]
        "BDI" 100 Option.none Option.none
      = PyResult.ret
          ⟨Option.none, Option.none,
           Option.some "No matching criteria found for the given score."⟩ ∧
    interpret_rating_scale
        [⟨"AUDIT", Option.some [("남", [⟨0, Option.some 9, "정상음주", "m1"⟩])],
          Option.none⟩]
        "AUDIT" 50 (Option.some "남") Option.none
      = PyResult.exc "KeyError: criteria" :=
  ⟨C3_no_match_disposition.1 "OCI-R" 21 Option.none "유의한 강박장애" "od" []
      15 Option.none Option.none (by decide),
   C3_no_match_disposition.2.1 "BDI" 0 (Option.some 9) "정상" "d1" []
      100 Option.none Option.none (by decide),
   C3_no_match_disposition.2.2 "AUDIT"
      [("남", [⟨0, Option.some 9, "정상음주", "m1"⟩])] "남"
      [⟨0, Option.some 9, "정상음주", "m1"⟩] 50 Option.none
      (by decide) (by decide) (by decide)⟩

/-- C4 counterexample: the empty string is a gender key not present in
the instrument's gender mapping, yet the evaluator returns the
gender-required error (Python falsiness of `""`), not the
invalid-gender error the claim promises for unknown keys. -/
theorem C4_counterexample :
    interpret_rating_scale
        [⟨"AUDIT", Option.some [("남", [⟨0, Option.some 9, "정상음주", "m1"⟩])],
          Option.none⟩]
        "AUDIT" 5 (Option.some "") Option.none
      = PyResult.ret
          ⟨Option.none, Option.none,
           Option.some "Gender is required for this assessment."⟩ ∧
    resultError (interpret_rating_scale
        [⟨"AUDIT", Option.some [("남", [⟨0, Option.some 9, "정상음주", "m1"⟩])],
          Option.none⟩]
        "AUDIT" 5 (Option.some "") Option.none)
      ≠ Option.some "Invalid gender . Expected 남 or 여." := by
  exact ⟨by decide, by decide⟩

/-- C4 (amended): for a gender-keyed instrument, a missing (`None`) or
empty-string gender yields the structured gender-required error, and a
non-empty gender absent from the gender mapping yields the structured
invalid-gender error; in each case the result carries no category or
description and does not depend on the rule lists. -/
theorem C4_gender_gating :
    (∀ (nm : String) (gmap : List (String × List GRule))
        (cr : Option (List Criterion)) (s : Int)
        (conds : Option (List (String × Value))),
      interpret_rating_scale [⟨nm, Option.some gmap, cr⟩] nm s Option.none conds
        = PyResult.ret
            ⟨Option.none, Option.none,
             Option.some "Gender is required for this assessment."⟩) ∧
    (∀ (nm : String) (gmap : List (String × List GRule))
        (cr : Option (List Criterion)) (s : Int)
        (conds : Option (List (String × Value))),
      interpret_rating_scale [⟨nm, Option.some gmap, cr⟩] nm s
          (Option.some "") conds
        = PyResult.ret
            ⟨Option.none, Option.none,
             Option.some "Gender is required for this assessment."⟩) ∧
    (∀ (nm : String) (gmap : List (String × List GRule))
        (cr : Option (List Criterion)) (s : Int)
        (conds : Option (List (String × Value))) (g : String),
      g.isEmpty = false → (∀ p ∈ gmap, p.1 ≠ g) →
      interpret_rating_scale [⟨nm, Option.some gmap, cr⟩] nm s
          (Option.some g) conds
        = PyResult.ret
            ⟨Option.none, Option.none,
             Option.some ("Invalid gender " ++ g ++ ". Expected 남 or 여.")⟩) := by
  refine ⟨?_, ?_, ?_⟩
  · intro nm gmap cr s conds
    simp [interpret_rating_scale, List.find?, genderFalsy]
  · intro nm gmap cr s conds
    have hempty : ("" : String).isEmpty = true := by decide
    simp [interpret_rating_scale, List.find?, genderFalsy, hempty]
  · intro nm gmap cr s conds g hg hmem
    have hfind : gmap.find? (fun p => p.1 == g) = Option.none := by
      rw [List.find?_eq_none]
      intro p hp
      simpa using hmem p hp
    simp [interpret_rating_scale, List.find?, genderFalsy, hg, hfind]

/-- Closed instances of C4 (amended): missing gender, empty gender and
an unknown non-empty gender key on an AUDIT-style instrument. -/
theorem C4_witness :
    interpret_rating_scale
        [⟨"AUDIT", Option.some [("남", [⟨0, Option.some 9, "정상음주", "m1"⟩])],
          Option.none⟩]
        "AUDIT" 10 Option.none Option.none
      = PyResult.ret
          ⟨Option.none, Option.none,
           Option.some "Gender is required for this assessment."⟩ ∧
    interpret_rating_scale
        [⟨"AUDIT", Option.some [("남", [⟨0, Option.some 9, "정상음주", "m1"⟩])],
          Option.none⟩]
        "AUDIT" 10 (Option.some "") Option.none
      = PyResult.ret
          ⟨Option.none, Option.none,
           Option.some "Gender is required for this assessment."⟩ ∧
    interpret_rating_scale
        [⟨"AUDIT", Option.some [("남", [⟨0, Option.some 9, "정상음주", "m1"⟩])],
          Option.none⟩]
        "AUDIT" 10 (Option.some "기타") Option.none
      = PyResult.ret
          ⟨Option.none, Option.none,
           Option.some ("Invalid gender " ++ "기타" ++ ". Expected 남 or 여.")⟩ :=
  ⟨C4_gender_gating.1 "AUDIT" [("남", [⟨0, Option.some 9, "정상음주", "m1"⟩])]
      Option.none 10 Option.none,
   C4_gender_gating.2.1 "AUDIT" [("남", [⟨0, Option.some 9, "정상음주", "m1"⟩])]
      Option.none 10 Option.none,
   C4_gender_gating.2.2 "AUDIT" [("남", [⟨0, Option.some 9, "정상음주", "m1"⟩])]
      Option.none 10 Option.none "기타" (by decide) (by decide)⟩

/-- C5 counterexample: on a failed condition the returned description
is the message generated from the condition's field and values, not the
condition's own stored `description` ("CONDDESC" here). -/
theorem C5_counterexample :
    interpret_rating_scale
        [⟨"K-MDQ", Option.none, Option.some
          [Criterion.threshold 5
            (Option.some ⟨"f", Value.str "예", "CONDDESC"⟩) "POS" "DP"]⟩]
        "K-MDQ" 10 Option.none (Option.some [("f", Value.str "아니오")])
      = PyResult.ret
          ⟨Option.some "조건 불충족",
           Option.some "f 값이 예이어야 하지만 아니오입니다.", Option.none⟩ ∧
    resultDescription (interpret_rating_scale
        [⟨"K-MDQ", Option.none, Option.some
          [Criterion.threshold 5
            (Option.some ⟨"f", Value.str "예", "CONDDESC"⟩) "POS" "DP"]⟩]
        "K-MDQ" 10 Option.none (Option.some [("f", Value.str "아니오")]))
      ≠ Option.some "CONDDESC" := by
  exact ⟨by decide, by decide⟩

/-- C5 (amended): when a threshold rule carrying an additional
condition is the first rule reached (every earlier rule misses), the
total meets the threshold, conditions were supplied, and the supplied
value does not equal the expected one, the evaluator returns the
condition-failure category together with a description generated from
the condition's field, expected value and supplied value — not the
condition's stored description — and the result does not depend on any
later rule (evaluation is terminal, no fallthrough). -/
theorem C5_condition_failure_terminal (nm : String) (pre : List Criterion)
    (t : Int) (f : String) (expected : Value) (cd cat desc : String)
    (rest : List Criterion) (s : Int) (gender : Option String)
    (l : List (String × Value))
    (hpre : ∀ c ∈ pre, CritNoHit s c) (hts : t ≤ s)
    (hl : l.isEmpty = false)
    (hne : pyEq (lookupCond l f) expected = false) :
    interpret_rating_scale
        [⟨nm, Option.none, Option.some
          (pre ++ Criterion.threshold t
            (Option.some ⟨f, expected, cd⟩) cat desc :: rest)⟩]
        nm s gender (Option.some l)
      = PyResult.ret
          ⟨Option.some "조건 불충족",
           Option.some (condFailDesc f expected (lookupCond l f)),
           Option.none⟩ := by
  have happ := runCriteria_append_nohit s (Option.some l) pre
    (Criterion.threshold t (Option.some ⟨f, expected, cd⟩) cat desc :: rest) hpre
  simp [interpret_rating_scale, List.find?, happ, runCriteria, condsFalsy,
    hl, hts, hne]

/-- Closed instance of C5 (amended): a K-MDQ-style threshold rule after
one missed range rule, with a non-matching supplied condition and a
later rule that is never consulted. -/
theorem C5_witness :
    interpret_rating_scale
        [⟨"K-MDQ", Option.none, Option.some
          ([Criterion.range 0 (Option.some 3) "저점" "ld"] ++
            Criterion.threshold 7
              (Option.some ⟨"simultaneity", Value.str "예", "CONDDESC"⟩)
              "조울증 의심" "kd" ::
            [Criterion.threshold 0 Option.none "후순위" "rd"])⟩]
        "K-MDQ" 8 Option.none (Option.some [("simultaneity", Value.str "아니오")])
      = PyResult.ret
          ⟨Option.some "조건 불충족",
           Option.some (condFailDesc "simultaneity" (Value.str "예")
             (lookupCond [("simultaneity", Value.str "아니오")] "simultaneity")),
           Option.none⟩ :=
  C5_condition_failure_terminal "K-MDQ"
    [Criterion.range 0 (Option.some 3) "저점" "ld"] 7 "simultaneity"
    (Value.str "예") "CONDDESC" "조울증 의심" "kd"
    [Criterion.threshold 0 Option.none "후순위" "rd"] 8 Option.none
    [("simultaneity", Value.str "아니오")]
    (by decide) (by decide) (by decide) (by decide)

/-- C9: the missing-additional-conditions error is reported only when
the total actually reaches a threshold rule carrying a condition: with
`additional_conditions` omitted but the total below every
condition-carrying threshold, the evaluator never returns that error,
and when furthermore no rule matches at all and the first rule is a
threshold rule, it produces the normal / below-threshold default. -/
theorem C9_missing_condition_error_needs_reached_rule :
    (∀ (nm : String) (cs : List Criterion) (s : Int) (gender : Option String),
      (∀ c ∈ cs, ThresholdCondBelow s c) →
      resultError (interpret_rating_scale [⟨nm, Option.none, Option.some cs⟩]
          nm s gender Option.none)
        ≠ Option.some "Additional conditions required for this assessment.") ∧
    (∀ (nm : String) (t : Int) (ac : AddCond) (cat desc : String)
        (rest : List Criterion) (s : Int) (gender : Option String),
      (∀ c ∈ Criterion.threshold t (Option.some ac) cat desc :: rest,
        CritNoHit s c) →
      interpret_rating_scale
          [⟨nm, Option.none,
            Option.some (Criterion.threshold t (Option.some ac) cat desc :: rest)⟩]
          nm s gender Option.none
        = PyResult.ret
            ⟨Option.some "정상",
             Option.some "점수가 임계값 미만이므로 정상으로 간주됩니다.",
             Option.none⟩) := by
  constructor
  · intro nm cs s gender h
    rcases runCriteria_none_no_early s cs h with ⟨cat, desc, hrun⟩ | hrun <;>
      · simp only [interpret_rating_scale, List.find?, beq_self_eq_true, hrun]
        exact finishResult_error_ne_addcond _ _ rfl
  · intro nm t ac cat desc rest s gender h
    exact interpret_nomatch_threshold_first nm t (Option.some ac) cat desc rest
      s gender Option.none h

/-- Closed instance of C9: a K-MDQ-style instrument, total 5 below the
condition-carrying threshold 7, with no conditions supplied: no
missing-conditions error, and the normal default is returned. -/
theorem C9_witness :
    resultError (interpret_rating_scale
        [⟨"K-MDQ", Option.none, Option.some
          [Criterion.threshold 7
            (Option.some ⟨"simultaneity", Value.str "예", "cd"⟩)
            "조울증 의심" "kd"]⟩]
        "K-MDQ" 5 Option.none Option.none)
      ≠ Option.some "Additional conditions required for this assessment." ∧
    interpret_rating_scale
        [⟨"K-MDQ", Option.none, Option.some
          [Criterion.threshold 7
            (Option.some ⟨"simultaneity", Value.str "예", "cd"⟩)
            "조울증 의심" "kd"]⟩]
        "K-MDQ" 5 Option.none Option.none
      = PyResult.ret
          ⟨Option.some "정상",
           Option.some "점수가 임계값 미만이므로 정상으로 간주됩니다.",
           Option.none⟩ :=
  ⟨C9_missing_condition_error_needs_reached_rule.1 "K-MDQ"
      [Criterion.threshold 7
        (Option.some ⟨"simultaneity", Value.str "예", "cd"⟩) "조울증 의심" "kd"]
      5 Option.none (by decide),
   C9_missing_condition_error_needs_reached_rule.2 "K-MDQ" 7
      ⟨"simultaneity", Value.str "예", "cd"⟩ "조울증 의심" "kd" [] 5 Option.none
      (by decide)⟩

/-- C6: the claim (and the spec's "never raises" policy) fail on the
string input `"inf"`: it misses the lexical table, `float("inf")`
succeeds, and `int(float("inf"))` raises `OverflowError`, which the
`except (ValueError, TypeError)` clause does not catch — so
`_convert_to_numeric` raises instead of returning a clamped integer
(`"nan"`, by contrast, is caught and contributes 0). -/
theorem C6_inf_input_raises :
    _convert_to_numeric (Value.str "inf") 4
      = ConvOut.raised "OverflowError: cannot convert float infinity to integer" ∧
    _convert_to_numeric (Value.str "Infinity") 4
      = ConvOut.raised "OverflowError: cannot convert float infinity to integer" ∧
    _convert_to_numeric (Value.str "nan") 4 = ConvOut.ok 0 := by
  exact ⟨by decide, by decide, by decide⟩

/-- C7: the sleep-efficiency component computes
`(sleep_duration / time_in_bed) × 100`, where an `"HH:MM"` time becomes
`hours + minutes/60`, time in bed is wake − bed with 24 added when that
difference is ≤ 0, and the efficiency is bucketed
`≥85→0, 75–<85→1, 65–<75→2, <65→3`; in particular duration 6 with
bedtime "22:00" and wake "06:00" gives 8 hours in bed, efficiency 75
and component score 1. -/
theorem C7_sleep_efficiency :
    (∀ h m : Int, time_to_float (TimeVal.hm h m) = (h : ℚ) + (m : ℚ) / 60) ∧
    (∀ g w : ℚ,
      (w - g ≤ 0 → hours_in_bed g w = w - g + 24) ∧
      (0 < w - g → hours_in_bed g w = w - g)) ∧
    (∀ (d : ℚ) (gt wt : TimeVal),
      hours_in_bed (time_to_float gt) (time_to_float wt) ≠ 0 →
      ((85 ≤ d / hours_in_bed (time_to_float gt) (time_to_float wt) * 100 →
          calculate_sleep_efficiency d gt wt = Option.some 0) ∧
       (75 ≤ d / hours_in_bed (time_to_float gt) (time_to_float wt) * 100 ∧
          d / hours_in_bed (time_to_float gt) (time_to_float wt) * 100 < 85 →
          calculate_sleep_efficiency d gt wt = Option.some 1) ∧
       (65 ≤ d / hours_in_bed (time_to_float gt) (time_to_float wt) * 100 ∧
          d / hours_in_bed (time_to_float gt) (time_to_float wt) * 100 < 75 →
          calculate_sleep_efficiency d gt wt = Option.some 2) ∧
       (d / hours_in_bed (time_to_float gt) (time_to_float wt) * 100 < 65 →
          calculate_sleep_efficiency d gt wt = Option.some 3))) ∧
    hours_in_bed (time_to_float (TimeVal.hm 22 0)) (time_to_float (TimeVal.hm 6 0))
      = 8 ∧
    (6 : ℚ) / hours_in_bed (time_to_float (TimeVal.hm 22 0))
        (time_to_float (TimeVal.hm 6 0)) * 100 = 75 ∧
    calculate_sleep_efficiency 6 (TimeVal.hm 22 0) (TimeVal.hm 6 0)
      = Option.some 1 := by
  refine ⟨fun h m => rfl, fun g w => ⟨fun hle => ?_, fun hlt => ?_⟩,
    fun d gt wt hne => ?_, ?_, ?_, ?_⟩
  · simp [hours_in_bed, hle]
  · have : ¬ (w - g ≤ 0) := by linarith
    simp [hours_in_bed, this]
  · refine ⟨fun h85 => ?_, fun h75 => ?_, fun h65 => ?_, fun hlt => ?_⟩
    · simp only [calculate_sleep_efficiency, hne, if_false]
      split_ifs with h1 h2 h3 <;> first | rfl | exact absurd h85 h1
    · simp only [calculate_sleep_efficiency, hne, if_false]
      split_ifs with h1 h2 h3 <;>
        first
          | rfl
          | exact absurd h1 (not_le.mpr h75.2)
          | exact absurd h75 h2
    · simp only [calculate_sleep_efficiency, hne, if_false]
      split_ifs with h1 h2 h3 <;>
        first
          | rfl
          | exact absurd h65 h3
          | (exfalso; linarith [h65.2])
          | (exfalso; linarith [h2.1, h65.2])
    · simp only [calculate_sleep_efficiency, hne, if_false]
      split_ifs with h1 h2 h3 <;>
        first
          | rfl
          | (exfalso; linarith [hlt])
          | (exfalso; linarith [h2.1, hlt])
          | (exfalso; linarith [h3.1, hlt])
  · norm_num [hours_in_bed, time_to_float]
  · norm_num [hours_in_bed, time_to_float]
  · norm_num [calculate_sleep_efficiency, hours_in_bed, time_to_float]

/-- Closed instance of C7: the bucket clause applied to duration 6,
bedtime "22:00", wake "06:00" (8 hours in bed, efficiency 75). -/
theorem C7_witness :
    calculate_sleep_efficiency 6 (TimeVal.hm 22 0) (TimeVal.hm 6 0)
      = Option.some 1 :=
  ((C7_sleep_efficiency.2.2.1 6 (TimeVal.hm 22 0) (TimeVal.hm 6 0)
      (by norm_num [hours_in_bed, time_to_float])).2.1
    (by norm_num [hours_in_bed, time_to_float]))

/-- C8 counterexample: the subjective-quality component is passed
through unclamped, so an input with `sleep_quality = 100` (all other
fields ordinary) yields component 1 equal to 100 ∉ [0, 3] and total
102 ∉ [0, 21]. -/
theorem C8_counterexample :
    (calculate_psqi_score
        ⟨100, 0, 6, TimeVal.num 22, TimeVal.num 6,
         ⟨0, 0, 0, 0, 0, 0, 0, 0, 0, 0⟩, 0, 0, 0⟩).map PsqiResult.c1
      = Option.some 100 ∧
    (calculate_psqi_score
        ⟨100, 0, 6, TimeVal.num 22, TimeVal.num 6,
         ⟨0, 0, 0, 0, 0, 0, 0, 0, 0, 0⟩, 0, 0, 0⟩).map PsqiResult.total_score
      = Option.some 102 ∧
    ¬ ((100 : Int) ≤ 3) ∧ ¬ ((102 : Int) ≤ 21) := by
  refine ⟨?_, ?_, by norm_num, by norm_num⟩ <;>
    norm_num [calculate_psqi_score, calculate_sleep_latency,
      calculate_disturbance, disturbanceTotal, calculate_sleep_efficiency,
      hours_in_bed, time_to_float]

/-- C8 (amended): when the two pass-through fields (subjective quality
and medication use) lie in [0, 3], every one of the seven component
scores of `calculate_psqi_score` lies in [0, 3] and the total — the sum
of the seven — lies in [0, 21]; the remaining five components are
bucketed into [0, 3] unconditionally. -/
theorem C8_components_and_total_bounded (r : PsqiInput)
    (hq0 : 0 ≤ r.sleep_quality) (hq3 : r.sleep_quality ≤ 3)
    (hm0 : 0 ≤ r.sleep_medication) (hm3 : r.sleep_medication ≤ 3)
    (res : PsqiResult) (heq : calculate_psqi_score r = Option.some res) :
    (0 ≤ res.c1 ∧ res.c1 ≤ 3) ∧ (0 ≤ res.c2 ∧ res.c2 ≤ 3) ∧
    (0 ≤ res.c3 ∧ res.c3 ≤ 3) ∧ (0 ≤ res.c4 ∧ res.c4 ≤ 3) ∧
    (0 ≤ res.c5 ∧ res.c5 ≤ 3) ∧ (0 ≤ res.c6 ∧ res.c6 ≤ 3) ∧
    (0 ≤ res.c7 ∧ res.c7 ≤ 3) ∧
    (0 ≤ res.total_score ∧ res.total_score ≤ 21) := by
  simp only [calculate_psqi_score] at heq
  cases hc4 : calculate_sleep_efficiency r.sleep_duration r.hour_to_goto_sleep
      r.wakeup_time with
  | none => rw [hc4] at heq; exact absurd heq (by simp)
  | some c4 =>
    rw [hc4] at heq
    simp only [Option.some.injEq] at heq
    subst heq
    have h2 := calculate_sleep_latency_bounds r.sleep_onset
      r.psqi_sleep_disturbances.a
    have h4 := calculate_sleep_efficiency_bounds r.sleep_duration
      r.hour_to_goto_sleep r.wakeup_time c4 hc4
    have h5 := calculate_disturbance_bounds r.psqi_sleep_disturbances
    dsimp only
    refine ⟨⟨hq0, hq3⟩, h2, ?_, h4, h5, ⟨hm0, hm3⟩, ?_, ?_⟩ <;>
      split_ifs <;> omega

/-- Closed instance of C8 (amended): the PSQI example input (quality 1,
medication 1) has every component in [0, 3] and total in [0, 21]. -/
theorem C8_witness :
    (0 : Int) ≤ 1 ∧ (1 : Int) ≤ 3 ∧
    ∀ res, calculate_psqi_score
        ⟨1, 0, 6, TimeVal.num 22, TimeVal.num 6,
         ⟨0, 0, 2, 0, 2, 0, 0, 0, 2, 0⟩, 1, 0, 0⟩ = Option.some res →
      (0 ≤ res.total_score ∧ res.total_score ≤ 21) :=
  ⟨by norm_num, by norm_num,
    fun res heq =>
      (C8_components_and_total_bounded
        ⟨1, 0, 6, TimeVal.num 22, TimeVal.num 6,
         ⟨0, 0, 2, 0, 2, 0, 0, 0, 2, 0⟩, 1, 0, 0⟩
        (by norm_num) (by norm_num) (by norm_num) (by norm_num)
        res heq).2.2.2.2.2.2.2⟩

/-- C10: for any bedtime and wake-time values in [0, 24) (after
"HH:MM" conversion), the hours-in-bed quantity is strictly positive
after the overnight +24 adjustment, so the sleep-efficiency division
never divides by zero and the calculator always produces a score. -/
theorem C10_hours_in_bed_positive (d : ℚ) (gt wt : TimeVal)
    (hg0 : 0 ≤ time_to_float gt) (hg24 : time_to_float gt < 24)
    (hw0 : 0 ≤ time_to_float wt) (hw24 : time_to_float wt < 24) :
    0 < hours_in_bed (time_to_float gt) (time_to_float wt) ∧
    (calculate_sleep_efficiency d gt wt).isSome = true := by
  have hpos : 0 < hours_in_bed (time_to_float gt) (time_to_float wt) := by
    simp only [hours_in_bed]
    split_ifs with h <;> linarith
  refine ⟨hpos, ?_⟩
  have hne : hours_in_bed (time_to_float gt) (time_to_float wt) ≠ 0 :=
    ne_of_gt hpos
  simp [calculate_sleep_efficiency, hne]

/-- Closed instance of C10: bedtime "22:00" and wake "06:00" are both
in [0, 24); hours in bed are positive and a score is produced. -/
theorem C10_witness :
    0 < hours_in_bed (time_to_float (TimeVal.hm 22 0))
        (time_to_float (TimeVal.hm 6 0)) ∧
    (calculate_sleep_efficiency 6 (TimeVal.hm 22 0)
        (TimeVal.hm 6 0)).isSome = true :=
  C10_hours_in_bed_positive 6 (TimeVal.hm 22 0) (TimeVal.hm 6 0)
    (by norm_num [time_to_float]) (by norm_num [time_to_float])
    (by norm_num [time_to_float]) (by norm_num [time_to_float])

end PsyOPD
